import Mathlib

/-!
Verification of the PGD adversarial-distillation training script (`main.py`)
against its natural-language specification.

Modelling conventions (shallow embedding):
* A tensor is a flat list of exact rationals (`List ℚ`); every tensor
  operation the script performs on the attack path (`+`, `torch.sign`,
  `torch.min`/`torch.max`, `torch.clamp`) is element-wise, so this loses
  nothing relevant to the claims.
* Networks are abstract functions `List ℚ → List ℚ` (logits from inputs);
  the autograd engine is abstracted by an explicit gradient function
  `grad : List ℚ → List ℚ` standing for `∇ₓ cross_entropy(model(x), targets)`
  (main.py lines 36-38).  The library losses `KLDivLoss`, `CrossEntropyLoss`,
  `softmax`, `log_softmax` are likewise abstract function parameters: the
  claims under study concern how the script composes them, not their
  internals.
* The uniform random draw `torch.zeros_like(x).uniform_(-eps, eps)`
  (main.py line 33) is modelled by an explicit `noise` tensor parameter.
-/

namespace ARD

/-- Tensors of the script, flattened to their element lists. -/
abbrev Tensor := List ℚ

/-- Embeds `torch.sign`: 1 on positives, -1 on negatives, 0 at 0. -/
def tsign (v : ℚ) : ℚ := if 0 < v then 1 else if v < 0 then -1 else 0

/-- Embeds `torch.clamp(v, lo, hi) = min(max(v, lo), hi)`, element-wise. -/
def tclamp (lo hi v : ℚ) : ℚ := min (max v lo) hi

/-- The attack hyperparameter dictionary, main.py lines 15-19. -/
structure PGDConfig where
  epsilon : ℚ
  step_size : ℚ
  num_steps : ℕ

/-- The global `config` dictionary: epsilon = 8/255, num_steps = 10,
step_size = 2/255 (main.py lines 15-19). -/
def config : PGDConfig := { epsilon := 8/255, step_size := 2/255, num_steps := 10 }

/-- Embeds the `AttackPGD` module (main.py lines 23-29): the attacked model,
its input-gradient function (standing for autograd on
`cross_entropy(attack_model(x), targets)`), and the attack hyperparameters
copied from the config dictionary. -/
structure AttackPGD where
  attack_model : Tensor → Tensor
  grad : Tensor → Tensor
  step_size : ℚ
  epsilon : ℚ
  num_steps : ℕ

/-- Embeds `AttackPGD.__init__` (main.py lines 24-29): fields copied from the
config dictionary. -/
def AttackPGD.ofConfig (model grad : Tensor → Tensor) (cfg : PGDConfig) : AttackPGD :=
  { attack_model := model, grad := grad, step_size := cfg.step_size,
    epsilon := cfg.epsilon, num_steps := cfg.num_steps }

/-- One iteration of the PGD loop body, main.py lines 35-41:
`x = x.detach() + step_size * sign(grad)`;
`x = min(max(x, inputs - epsilon), inputs + epsilon)`;
`x = clamp(x, 0, 1)`. -/
def AttackPGD.stepOnce (A : AttackPGD) (inputs x : Tensor) : Tensor :=
  let g := A.grad x
  let moved := List.zipWith (fun xi gi => xi + A.step_size * tsign gi) x g
  let balled := List.zipWith (fun xi ci => min (max xi (ci - A.epsilon)) (ci + A.epsilon)) moved inputs
  balled.map (tclamp 0 1)

/-- Embeds `AttackPGD.forward` (main.py lines 31-42): start from
`inputs + noise`, run `num_steps` loop iterations, then evaluate the model
once more on the final perturbed tensor and return `(logits, perturbed)`. -/
def AttackPGD.forward (A : AttackPGD) (inputs noise : Tensor) : Tensor × Tensor :=
  let x0 := List.zipWith (· + ·) inputs noise
  let xN := (A.stepOnce inputs)^[A.num_steps] x0
  (A.attack_model xN, xN)

/-- One PGD iteration as the specification words it (spec §4.1): move by
`step_size * sign(gradient)`, "project the result back into the L∞ ball of
radius epsilon around the original input by per-element clamping", then
"clamp again to the valid [0,1] pixel range" — clamping written here as
`max (min · hi) lo`. -/
def specPGDStep (A : AttackPGD) (inputs x : Tensor) : Tensor :=
  let g := A.grad x
  let moved := List.zipWith (fun xi gi => xi + A.step_size * tsign gi) x g
  let projected := List.zipWith (fun xi ci => max (min xi (ci + A.epsilon)) (ci - A.epsilon)) moved inputs
  projected.map (fun v => max (min v 1) 0)

/-- The whole attack as the specification words it (spec §4.1): initialize at
`inputs + noise`, iterate `specPGDStep` `num_steps` times, evaluate the model
once more on the final perturbed input, return logits and perturbed input. -/
def specAttack (A : AttackPGD) (inputs noise : Tensor) : Tensor × Tensor :=
  let x0 := List.zipWith (· + ·) inputs noise
  let xN := (specPGDStep A inputs)^[A.num_steps] x0
  (A.attack_model xN, xN)

/-- Clamping to an interval `[lo, hi]` with `lo ≤ hi` can be written in
either nesting order. -/
lemma clamp_order_comm (lo hi v : ℚ) (h : lo ≤ hi) :
    max (min v hi) lo = min (max v lo) hi := by
  rcases le_total v lo with h1 | h1 <;> rcases le_total v hi with h2 | h2 <;>
    simp [min_def, max_def] <;> split_ifs <;> linarith

/-- A nonnegative radius makes the spec's projection equal to the code's. -/
lemma specPGDStep_eq_stepOnce (A : AttackPGD) (hε : 0 ≤ A.epsilon) (inputs : Tensor) :
    specPGDStep A inputs = A.stepOnce inputs := by
  funext x
  unfold specPGDStep AttackPGD.stepOnce
  have hball : (fun xi ci => max (min xi (ci + A.epsilon)) (ci - A.epsilon))
      = fun xi ci => min (max xi (ci - A.epsilon)) (ci + A.epsilon) := by
    funext xi ci
    exact clamp_order_comm (ci - A.epsilon) (ci + A.epsilon) xi (by linarith)
  have hunit : (fun v => max (min v 1) 0) = tclamp 0 1 := by
    funext v
    exact clamp_order_comm 0 1 v (by norm_num)
  rw [hball, hunit]

/-- C3: The attack operation initializes the perturbed input as the original
input plus the uniform noise draw; each of the `num_steps` iterations takes
the gradient of the model's cross-entropy loss at the current point, moves by
`+ step_size * sign(gradient)`, clamps element-wise into
`[original - epsilon, original + epsilon]`, then clamps into `[0,1]`; after
the final iteration the model is evaluated once more on the final perturbed
input and its logits are returned together with the perturbed tensor.
Stated as: the algorithm transcribed from the specification's words agrees
with the code's `AttackPGD.forward` (for the meaningful radii `epsilon ≥ 0`). -/
theorem attack_follows_spec_algorithm (A : AttackPGD) (hε : 0 ≤ A.epsilon)
    (inputs noise : Tensor) :
    specAttack A inputs noise = A.forward inputs noise := by
  unfold specAttack AttackPGD.forward
  rw [specPGDStep_eq_stepOnce A hε]

/-- Witness for `attack_follows_spec_algorithm` at a concrete attack. -/
theorem attack_follows_spec_algorithm_witness :
    0 ≤ (AttackPGD.ofConfig id (fun _ => [1]) config).epsilon ∧
      specAttack (AttackPGD.ofConfig id (fun _ => [1]) config) [1/2] [0]
        = (AttackPGD.ofConfig id (fun _ => [1]) config).forward [1/2] [0] :=
  ⟨by norm_num [AttackPGD.ofConfig, config],
   attack_follows_spec_algorithm _ (by norm_num [AttackPGD.ofConfig, config]) [1/2] [0]⟩

/-- Element-wise effect of one projection: for an original pixel `a ∈ [0,1]`
and radius `epsilon ≥ 0`, clamping any value into `[a - epsilon, a + epsilon]`
and then into `[0,1]` lands within `epsilon` of `a` and inside `[0,1]`. -/
lemma project_point_bounds (ε a v : ℚ) (hε : 0 ≤ ε) (ha0 : 0 ≤ a) (ha1 : a ≤ 1) :
    |tclamp 0 1 (min (max v (a - ε)) (a + ε)) - a| ≤ ε ∧
      0 ≤ tclamp 0 1 (min (max v (a - ε)) (a + ε)) ∧
      tclamp 0 1 (min (max v (a - ε)) (a + ε)) ≤ 1 := by
  set u := min (max v (a - ε)) (a + ε) with hu
  have hul : a - ε ≤ u := le_min (le_trans (by linarith) (le_max_right v (a - ε))) (by linarith)
  have hur : u ≤ a + ε := min_le_right _ _
  have h0 : 0 ≤ tclamp 0 1 u := le_min (le_max_right u 0) (by norm_num)
  have h1 : tclamp 0 1 u ≤ 1 := min_le_right _ _
  refine ⟨abs_sub_le_iff.2 ⟨?_, ?_⟩, h0, h1⟩
  · have : tclamp 0 1 u ≤ max u 0 := min_le_left _ _
    have hmax : max u 0 ≤ a + ε := max_le hur (by linarith)
    linarith
  · have : min (max u 0) 1 ≥ a - ε :=
      le_min (le_trans hul (le_max_left u 0)) (by linarith)
    simp only [tclamp] at *
    linarith

/-- After one iteration of the loop body, every element of the perturbed
tensor is within `epsilon` of the aligned original element and lies in
`[0,1]`, and the tensor is no longer than the input tensor. -/
lemma stepOnce_bounds (A : AttackPGD) (inputs x : Tensor)
    (hε : 0 ≤ A.epsilon) (hin : ∀ i (h : i < inputs.length), 0 ≤ inputs[i] ∧ inputs[i] ≤ 1) :
    (A.stepOnce inputs x).length ≤ inputs.length ∧
      ∀ i (hi : i < (A.stepOnce inputs x).length),
        ∃ hj : i < inputs.length,
          |(A.stepOnce inputs x)[i] - inputs.get ⟨i, hj⟩| ≤ A.epsilon ∧
            0 ≤ (A.stepOnce inputs x)[i] ∧ (A.stepOnce inputs x)[i] ≤ 1 := by
  unfold AttackPGD.stepOnce
  simp only [List.length_map, List.length_zipWith]
  constructor
  · omega
  · intro i hi
    have hj : i < inputs.length := by omega
    refine ⟨hj, ?_⟩
    rw [List.getElem_map, List.getElem_zipWith]
    simpa using project_point_bounds A.epsilon (inputs.get ⟨i, hj⟩) _ hε (hin i hj).1 (hin i hj).2

/-- C2: for inputs with all elements in `[0,1]` and `epsilon ≥ 0`, after each
PGD iteration's projection every element of the perturbed tensor differs from
the aligned original element by at most `epsilon` and lies in `[0,1]`; hence
for `num_steps ≥ 1` the returned adversarial tensor satisfies both bounds
element-wise. -/
theorem pgd_projection_invariant (A : AttackPGD) (inputs noise : Tensor)
    (hε : 0 ≤ A.epsilon) (hsteps : 1 ≤ A.num_steps)
    (hin : ∀ i (h : i < inputs.length), 0 ≤ inputs[i] ∧ inputs[i] ≤ 1) :
    ∀ i (hi : i < (A.forward inputs noise).2.length),
      ∃ hj : i < inputs.length,
        |(A.forward inputs noise).2[i] - inputs.get ⟨i, hj⟩| ≤ A.epsilon ∧
          0 ≤ (A.forward inputs noise).2[i] ∧ (A.forward inputs noise).2[i] ≤ 1 := by
  obtain ⟨k, hk⟩ : ∃ k, A.num_steps = k + 1 :=
    ⟨A.num_steps - 1, by omega⟩
  unfold AttackPGD.forward
  simp only [hk, Function.iterate_succ_apply']
  exact (stepOnce_bounds A inputs _ hε hin).2

/-- Witness for `pgd_projection_invariant` at a concrete attack instance. -/
theorem pgd_projection_invariant_witness :
    0 ≤ (AttackPGD.ofConfig id (fun _ => [1]) config).epsilon ∧
      1 ≤ (AttackPGD.ofConfig id (fun _ => [1]) config).num_steps ∧
      (∀ i (h : i < ([1/2] : Tensor).length), 0 ≤ ([1/2] : Tensor)[i] ∧ ([1/2] : Tensor)[i] ≤ 1) ∧
      ∀ i (hi : i < ((AttackPGD.ofConfig id (fun _ => [1]) config).forward [1/2] [2]).2.length),
        ∃ hj : i < ([1/2] : Tensor).length,
          |((AttackPGD.ofConfig id (fun _ => [1]) config).forward [1/2] [2]).2[i]
              - ([1/2] : Tensor).get ⟨i, hj⟩| ≤ (AttackPGD.ofConfig id (fun _ => [1]) config).epsilon ∧
            0 ≤ ((AttackPGD.ofConfig id (fun _ => [1]) config).forward [1/2] [2]).2[i] ∧
            ((AttackPGD.ofConfig id (fun _ => [1]) config).forward [1/2] [2]).2[i] ≤ 1 := by
  refine ⟨by norm_num [AttackPGD.ofConfig, config], by norm_num [AttackPGD.ofConfig, config],
    ?_, ?_⟩
  · intro i h
    simp only [List.length_singleton, Nat.lt_one_iff] at h
    subst h
    norm_num
  · exact pgd_projection_invariant _ [1/2] [2]
      (by norm_num [AttackPGD.ofConfig, config])
      (by norm_num [AttackPGD.ofConfig, config])
      (by intro i h
          simp only [List.length_singleton, Nat.lt_one_iff] at h
          subst h
          norm_num)

/-- C8: with `num_steps = 0` the loop body never runs: the attack returns the
initial `inputs + noise` tensor itself (no projection, no clamping) together
with the model's logits on that tensor. -/
theorem attack_zero_steps (model grad : Tensor → Tensor) (eps ss : ℚ)
    (inputs noise : Tensor) :
    (AttackPGD.ofConfig model grad { epsilon := eps, step_size := ss, num_steps := 0 }).forward
        inputs noise
      = (model (List.zipWith (· + ·) inputs noise), List.zipWith (· + ·) inputs noise) := rfl

/-- Embeds the per-batch loss computation of `train` (main.py lines 54 and
57-64).  `KL`, `XENT`, `softmax`, `log_softmax` are the library losses
`nn.KLDivLoss()`, `nn.CrossEntropyLoss()`, `F.softmax`, `F.log_softmax`, kept
abstract; `attackGrad` stands for autograd through `basic_net` inside the
attack.  Mirrors the body: the attack is `AttackPGD(basic_net, config)`
(line 54), `outputs, pert_inputs = attack_model(inputs, targets)` (line 60),
`teacher_outputs = teacher_net(inputs)` (line 61, computed and never used by
the loss), `basic_outputs = basic_net(inputs)` (line 62), and the loss of
lines 63-64. -/
def trainBatchLoss (KL : Tensor → Tensor → ℚ) (XENT : Tensor → List ℕ → ℚ)
    (softmax log_softmax : Tensor → Tensor)
    (basic_net teacher_net : Tensor → Tensor) (attackGrad : Tensor → Tensor)
    (alpha temp : ℚ) (inputs : Tensor) (targets : List ℕ) (noise : Tensor) : ℚ :=
  let attack_model := AttackPGD.ofConfig basic_net attackGrad config
  let outputs := (attack_model.forward inputs noise).1
  let teacher_outputs := teacher_net inputs
  let basic_outputs := basic_net inputs
  alpha * temp * temp * KL (log_softmax (basic_outputs.map (· / temp)))
      (softmax (outputs.map (· / temp)))
    + (1 - alpha) * XENT basic_outputs targets

/-- The training loss as claim C1 words it:
`alpha * temperature^2 * KL(log_softmax(student_clean/T), softmax(student_adv/T))
 + (1 - alpha) * cross_entropy(student_clean, labels)`, where the adversarial
logits are produced by the PGD attack run against the student itself. -/
def claimedTrainLoss (KL : Tensor → Tensor → ℚ) (XENT : Tensor → List ℕ → ℚ)
    (softmax log_softmax : Tensor → Tensor)
    (student : Tensor → Tensor) (studentAttackGrad : Tensor → Tensor)
    (alpha temp : ℚ) (inputs : Tensor) (targets : List ℕ) (noise : Tensor) : ℚ :=
  let student_adv :=
    ((AttackPGD.ofConfig student studentAttackGrad config).forward inputs noise).1
  let student_clean := student inputs
  alpha * temp ^ 2 * KL (log_softmax (student_clean.map (· / temp)))
      (softmax (student_adv.map (· / temp)))
    + (1 - alpha) * XENT student_clean targets

/-- C1: the per-batch training loss is exactly
`alpha * temp^2 * KL(log_softmax(student_clean/temp), softmax(student_adv/temp))
 + (1 - alpha) * cross_entropy(student_clean, targets)`, with the KL target
coming from the attack on the student being trained — for every teacher
network, since the loss never consults the teacher. -/
theorem train_loss_is_claimed_loss (KL : Tensor → Tensor → ℚ) (XENT : Tensor → List ℕ → ℚ)
    (softmax log_softmax : Tensor → Tensor)
    (basic_net teacher_net : Tensor → Tensor) (attackGrad : Tensor → Tensor)
    (alpha temp : ℚ) (inputs : Tensor) (targets : List ℕ) (noise : Tensor) :
    trainBatchLoss KL XENT softmax log_softmax basic_net teacher_net attackGrad
        alpha temp inputs targets noise
      = claimedTrainLoss KL XENT softmax log_softmax basic_net attackGrad
          alpha temp inputs targets noise := by
  unfold trainBatchLoss claimedTrainLoss
  ring_nf

/-- C6: the training loss does not depend on the teacher network: two runs
that differ only in the teacher's weights (same inputs, student weights,
and random draw) compute identical loss values. -/
theorem train_loss_teacher_independent (KL : Tensor → Tensor → ℚ)
    (XENT : Tensor → List ℕ → ℚ) (softmax log_softmax : Tensor → Tensor)
    (basic_net teacher_net1 teacher_net2 : Tensor → Tensor) (attackGrad : Tensor → Tensor)
    (alpha temp : ℚ) (inputs : Tensor) (targets : List ℕ) (noise : Tensor) :
    trainBatchLoss KL XENT softmax log_softmax basic_net teacher_net1 attackGrad
        alpha temp inputs targets noise
      = trainBatchLoss KL XENT softmax log_softmax basic_net teacher_net2 attackGrad
          alpha temp inputs targets noise := rfl

/-- Embeds `adjust_learning_rate` (main.py lines 45-49): when the epoch is a
listed milestone the optimizer's rate is set to `lr * lr_factor`, where `lr`
is the value the caller passes in; otherwise the optimizer's rate `opt_lr` is
left as it is.  The function's local `lr *= args.lr_factor` never escapes to
the caller. -/
def adjust_learning_rate (lr_schedule : List ℕ) (lr_factor : ℚ) (epoch : ℕ)
    (lr opt_lr : ℚ) : ℚ :=
  if epoch ∈ lr_schedule then lr * lr_factor else opt_lr

/-- The optimizer's learning rate after the `adjust_learning_rate` calls of
epochs `0, 1, …, epochsDone - 1`, as driven by `main` (main.py lines
158-162): `lr = args.lr` is fixed once before the loop and the same value is
passed to every call. -/
def optimizerLrAfter (lr_schedule : List ℕ) (lr_factor lr0 : ℚ) (epochsDone : ℕ) : ℚ :=
  (List.range epochsDone).foldl
    (fun cur e => adjust_learning_rate lr_schedule lr_factor e lr0 cur) lr0

/-- Unrolling one epoch of the learning-rate fold. -/
lemma optimizerLrAfter_succ (sched : List ℕ) (factor lr0 : ℚ) (n : ℕ) :
    optimizerLrAfter sched factor lr0 (n + 1)
      = adjust_learning_rate sched factor n lr0 (optimizerLrAfter sched factor lr0 n) := by
  unfold optimizerLrAfter
  rw [List.range_succ, List.foldl_append]
  rfl

/-- Closed form of the rate: because every milestone writes the same value
`lr0 * factor`, the rate after `n` epochs is `lr0 * factor` when some
milestone is below `n`, and the initial `lr0` otherwise. -/
lemma optimizerLrAfter_closed (sched : List ℕ) (factor lr0 : ℚ) (n : ℕ) :
    optimizerLrAfter sched factor lr0 n
      = if ∃ e ∈ sched, e < n then lr0 * factor else lr0 := by
  induction n with
  | zero =>
    rw [if_neg]
    · rfl
    · rintro ⟨e, _, h⟩
      omega
  | succ n ih =>
    rw [optimizerLrAfter_succ, ih]
    unfold adjust_learning_rate
    by_cases hn : n ∈ sched
    · rw [if_pos hn, if_pos ⟨n, hn, Nat.lt_succ_self n⟩]
    · have hiff : (∃ e ∈ sched, e < n + 1) ↔ (∃ e ∈ sched, e < n) := by
        constructor
        · rintro ⟨e, he, hlt⟩
          refine ⟨e, he, ?_⟩
          rcases Nat.lt_succ_iff_lt_or_eq.1 hlt with h | h
          · exact h
          · subst h
            exact absurd he hn
        · rintro ⟨e, he, hlt⟩
          exact ⟨e, he, by omega⟩
      rw [if_neg hn, if_congr hiff rfl rfl]

/-- Counterexample to C4 as stated: with `lr_schedule = [100, 150]`,
`lr_factor = 0.1`, initial `lr = 0.1`, the rate after the adjustment at epoch
index 150 is 1/100, not the claimed 1/1000 — milestone decays do not
compound, because `main` passes the unchanged initial `lr` into every
`adjust_learning_rate` call. -/
theorem lr_schedule_does_not_compound :
    optimizerLrAfter [100, 150] (1/10) (1/10) 151 = 1/100 ∧
      optimizerLrAfter [100, 150] (1/10) (1/10) 151 ≠ 1/1000 := by
  rw [optimizerLrAfter_closed, if_pos ⟨100, by simp, by norm_num⟩]
  norm_num

/-- C4 amended: with `lr_schedule = [100, 150]`, `lr_factor = 0.1`, initial
`lr = 0.1`, the effective rate is 1/100 after the adjustment at epoch index
100 and still 1/100 after the adjustment at epoch index 150 (each milestone
sets the rate to `initial_lr * lr_factor`; decays do not compound), and any
adjustment at an epoch index not in `lr_schedule` leaves the rate unchanged. -/
theorem lr_schedule_behaviour :
    optimizerLrAfter [100, 150] (1/10) (1/10) 101 = 1/100 ∧
      optimizerLrAfter [100, 150] (1/10) (1/10) 151 = 1/100 ∧
      ∀ (sched : List ℕ) (factor lr0 cur : ℚ) (e : ℕ), e ∉ sched →
        adjust_learning_rate sched factor e lr0 cur = cur := by
  refine ⟨?_, ?_, ?_⟩
  · rw [optimizerLrAfter_closed, if_pos ⟨100, by simp, by norm_num⟩]
    norm_num
  · rw [optimizerLrAfter_closed, if_pos ⟨100, by simp, by norm_num⟩]
    norm_num
  · intro sched factor lr0 cur e he
    simp [adjust_learning_rate, he]

/-- Witness for `lr_schedule_behaviour` at epoch 7, not a milestone. -/
theorem lr_schedule_behaviour_witness :
    optimizerLrAfter [100, 150] (1/10) (1/10) 101 = 1/100 ∧
      optimizerLrAfter [100, 150] (1/10) (1/10) 151 = 1/100 ∧
      (7 : ℕ) ∉ ([100, 150] : List ℕ) ∧
      adjust_learning_rate [100, 150] (1/10) 7 (1/10) (3/5) = 3/5 :=
  ⟨lr_schedule_behaviour.1, lr_schedule_behaviour.2.1, by decide,
    lr_schedule_behaviour.2.2 [100, 150] (1/10) (1/10) (3/5) 7 (by decide)⟩

/-- A network parameter as torch sees it: a value together with its
gradient-tracking flag. -/
structure ParamT where
  value : ℚ
  requires_grad : Bool
  deriving DecidableEq

/-- Embeds main.py lines 144-145: `for param in teacher_net.parameters():
param.requires_grad = False`. -/
def freezeTeacherParams (ps : List ParamT) : List ParamT :=
  ps.map (fun p => { p with requires_grad := false })

/-- The mutable training state: the student's parameters, the optimizer
state (built over the student's parameters only, main.py line 159), and the
teacher's parameters. -/
structure TrainState where
  basic_net : List ℚ
  optimizer : List ℚ
  teacher_net : List ParamT

/-- One batch of `train` (main.py lines 57-66) as it acts on the training
state: `optimizer.zero_grad()`, forward passes, `loss.backward()` and
`optimizer.step()` are an update `sgdStep` that reads and writes only the
student's parameters and the optimizer state.  The teacher is read at most
(line 61) and never assigned. -/
def trainBatchUpdate (sgdStep : List ℚ → List ℚ → List ℚ × List ℚ)
    (st : TrainState) : TrainState :=
  let r := sgdStep st.basic_net st.optimizer
  { st with basic_net := r.1, optimizer := r.2 }

/-- One epoch of `train`: the batch update folded over the loader's batches
(main.py line 57). -/
def trainEpoch (sgdStep : List ℚ → List ℚ → List ℚ × List ℚ) (nBatches : ℕ)
    (st : TrainState) : TrainState :=
  (trainBatchUpdate sgdStep)^[nBatches] st

/-- The whole training run of `main` (main.py lines 160-163): `epochs`
epochs of `train`. -/
def trainRun (sgdStep : List ℚ → List ℚ → List ℚ × List ℚ)
    (nBatches epochs : ℕ) (st : TrainState) : TrainState :=
  (trainEpoch sgdStep nBatches)^[epochs] st

/-- The batch update never touches the teacher field. -/
lemma trainBatchUpdate_teacher (sgdStep : List ℚ → List ℚ → List ℚ × List ℚ)
    (st : TrainState) : (trainBatchUpdate sgdStep st).teacher_net = st.teacher_net := rfl

/-- No iteration count of a teacher-preserving update changes the teacher. -/
lemma iterate_teacher_fixed (f : TrainState → TrainState)
    (hf : ∀ st, (f st).teacher_net = st.teacher_net) (n : ℕ) (st : TrainState) :
    (f^[n] st).teacher_net = st.teacher_net := by
  induction n generalizing st with
  | zero => rfl
  | succ n ih => rw [Function.iterate_succ_apply, ih (f st), hf st]

/-- C5: the teacher is never mutated by training: every teacher parameter
has its gradient flag disabled by the setup of main.py lines 144-145, and
after any number of epochs of batch updates — which act on the student's
parameters and the optimizer state only — the teacher's parameters are
identical to their values at load time. -/
theorem teacher_frozen_and_preserved (ps : List ParamT)
    (sgdStep : List ℚ → List ℚ → List ℚ × List ℚ)
    (nBatches epochs : ℕ) (st : TrainState) :
    (∀ p ∈ freezeTeacherParams ps, p.requires_grad = false) ∧
      (trainRun sgdStep nBatches epochs st).teacher_net = st.teacher_net := by
  constructor
  · intro p hp
    rcases List.mem_map.1 hp with ⟨q, _, rfl⟩
    rfl
  · unfold trainRun
    exact iterate_teacher_fixed _
      (fun st => iterate_teacher_fixed _ (trainBatchUpdate_teacher sgdStep) nBatches st)
      epochs st

/-- Witness for `teacher_frozen_and_preserved` at a concrete state. -/
theorem teacher_frozen_and_preserved_witness :
    (∀ p ∈ freezeTeacherParams [⟨5, true⟩], p.requires_grad = false) ∧
      (trainRun (fun s o => (s.map (· + 1), o)) 2 3
          ⟨[0], [0], [⟨5, false⟩]⟩).teacher_net = [⟨5, false⟩] :=
  teacher_frozen_and_preserved [⟨5, true⟩] (fun s o => (s.map (· + 1), o)) 2 3
    ⟨[0], [0], [⟨5, false⟩]⟩

/-- Embeds the teacher-construction branch of `main` (main.py lines
136-142): a teacher is built only when `teacher_path` is nonempty, by string
dispatch on `teacher_model`; an unrecognized name (or empty `teacher_path`)
leaves `teacher_net` unbound, which aborts the run when the name is used. -/
def buildTeacherArch (teacher_path teacher_model : String) : Option String :=
  if teacher_path ≠ "" then
    if teacher_model = "MobileNetV2" then some "MobileNetV2"
    else if teacher_model = "WideResNet" then some "WideResNet"
    else if teacher_model = "ResNet18" then some "ResNet18"
    else none
  else none

/-- A loaded teacher: the constructed architecture and the parameters
installed by `load_state_dict`. -/
structure TeacherNet where
  arch : String
  params : List ℚ

/-- Embeds the teacher-loading phase of `main` (main.py lines 148-155).
The filesystem is an abstract map `fs`: `fs path = none` means the file is
absent, `some none` a file whose contents cannot be loaded (unpickling or
missing `net` entry), `some (some ps)` a checkpoint whose `net` entry is
`ps`.  The load path is the literal `"./checkpoint/" ++ "NT_.pth"` of lines
152-153; `teacher_path` is never consulted for it.  Failures become
`Except.error`, matching the fatal uncaught exceptions of the script. -/
def loadTeacher (teacher_path teacher_model : String)
    (fs : String → Option (Option (List ℚ))) : Except String TeacherNet :=
  match fs ("./checkpoint/" ++ "NT_.pth") with
  | none => Except.error "FileNotFoundError"
  | some none => Except.error "checkpoint contents not loadable"
  | some (some ps) =>
    match buildTeacherArch teacher_path teacher_model with
    | none => Except.error "NameError: name teacher_net is not defined"
    | some a => Except.ok ⟨a, ps⟩

/-- C7: the teacher's weights come from the fixed path
`./checkpoint/NT_.pth` regardless of the `--teacher_path` value: for any two
nonempty `teacher_path` values and any two filesystems agreeing at that one
path, loading gives the same result (the option's value only gates
construction by being nonempty, and no other path is read); and the load is
an error when the file is absent or its contents cannot be loaded. -/
theorem teacher_loaded_from_fixed_path (tm p q : String)
    (fs gs : String → Option (Option (List ℚ)))
    (hp : p ≠ "") (hq : q ≠ "")
    (hagree : fs "./checkpoint/NT_.pth" = gs "./checkpoint/NT_.pth") :
    loadTeacher p tm fs = loadTeacher q tm gs ∧
      (fs "./checkpoint/NT_.pth" = none →
        loadTeacher p tm fs = Except.error "FileNotFoundError") ∧
      (fs "./checkpoint/NT_.pth" = some none →
        loadTeacher p tm fs = Except.error "checkpoint contents not loadable") := by
  have hpath : ("./checkpoint/" ++ "NT_.pth" : String) = "./checkpoint/NT_.pth" := rfl
  have harch : buildTeacherArch p tm = buildTeacherArch q tm := by
    unfold buildTeacherArch
    rw [if_pos hp, if_pos hq]
  refine ⟨?_, ?_, ?_⟩
  · unfold loadTeacher
    rw [hpath, hagree, harch]
  · intro habs
    unfold loadTeacher
    rw [hpath, habs]
  · intro hmal
    unfold loadTeacher
    rw [hpath, hmal]

/-- Witness for `teacher_loaded_from_fixed_path`: two different
`--teacher_path` values over an empty filesystem. -/
theorem teacher_loaded_from_fixed_path_witness :
    ("a" : String) ≠ "" ∧ ("b" : String) ≠ "" ∧
      ((fun _ => none : String → Option (Option (List ℚ))) "./checkpoint/NT_.pth"
        = (fun _ => none : String → Option (Option (List ℚ))) "./checkpoint/NT_.pth") ∧
      (loadTeacher "a" "ResNet18" (fun _ => none)
          = loadTeacher "b" "ResNet18" (fun _ => none) ∧
        ((fun _ => none : String → Option (Option (List ℚ))) "./checkpoint/NT_.pth" = none →
          loadTeacher "a" "ResNet18" (fun _ => none) = Except.error "FileNotFoundError") ∧
        ((fun _ => none : String → Option (Option (List ℚ))) "./checkpoint/NT_.pth" = some none →
          loadTeacher "a" "ResNet18" (fun _ => none)
            = Except.error "checkpoint contents not loadable")) :=
  ⟨by decide, by decide, rfl,
    teacher_loaded_from_fixed_path "ResNet18" "a" "b" (fun _ => none) (fun _ => none)
      (by decide) (by decide) rfl⟩

/-- Embeds the checkpoint step at the end of a `train` epoch (main.py lines
69-76): when `(epoch + 1) % save_period == 0`, a state dict with exactly the
entries `net` (student parameters) and `optimizer` (optimizer state) is
saved to `./checkpoint/<dataset>/<output>/epoch=<epoch>.t7`; otherwise
nothing is written. -/
def trainCheckpoint (save_period : ℕ) (dataset output : String) (epoch : ℕ)
    (netState optState : List ℚ) : Option (String × List (String × List ℚ)) :=
  if (epoch + 1) % save_period = 0 then
    some ("./checkpoint/" ++ dataset ++ "/" ++ output ++ "/epoch=" ++ toString epoch ++ ".t7",
      [("net", netState), ("optimizer", optState)])
  else
    none

/-- C9: after the training pass of epoch index `N`, a checkpoint is written
iff `(N + 1) % save_period = 0`, and when written it is stored at
`./checkpoint/<dataset>/<output>/epoch=<N>.t7` (the relative location
`checkpoint/<dataset>/<output>/epoch=<N>.t7`) and holds exactly the keys
`net` and `optimizer` with the student's and the optimizer's state.  The
positivity of `save_period` records the script's precondition: at
`save_period = 0` Python's `%` raises instead. -/
theorem checkpoint_written_iff_period (save_period : ℕ) (dataset output : String)
    (N : ℕ) (netState optState : List ℚ) (hsp : 0 < save_period) :
    ((trainCheckpoint save_period dataset output N netState optState).isSome
        ↔ (N + 1) % save_period = 0) ∧
      ((N + 1) % save_period = 0 →
        trainCheckpoint save_period dataset output N netState optState
          = some ("./checkpoint/" ++ dataset ++ "/" ++ output ++ "/epoch="
                ++ toString N ++ ".t7",
              [("net", netState), ("optimizer", optState)])) := by
  by_cases h : (N + 1) % save_period = 0 <;>
    simp [trainCheckpoint, h]

/-- Witness for `checkpoint_written_iff_period` with `save_period = 2`:
written after epoch 1, and the exact path and contents come out. -/
theorem checkpoint_written_iff_period_witness :
    0 < 2 ∧
      (((trainCheckpoint 2 "CIFAR10" "run" 1 [3] [4]).isSome ↔ (1 + 1) % 2 = 0) ∧
        ((1 + 1) % 2 = 0 →
          trainCheckpoint 2 "CIFAR10" "run" 1 [3] [4]
            = some ("./checkpoint/" ++ "CIFAR10" ++ "/" ++ "run" ++ "/epoch="
                  ++ toString 1 ++ ".t7",
                [("net", [3]), ("optimizer", [4])]))) :=
  ⟨by decide, checkpoint_written_iff_period 2 "CIFAR10" "run" 1 [3] [4] (by decide)⟩

/-- Embeds the argmax of `outputs.max(1)`: the index of the first maximal
logit. -/
def argmaxFrom : ℕ → ℕ → ℚ → List ℚ → ℕ
  | _, bi, _, [] => bi
  | i, bi, bv, v :: vs =>
    if bv < v then argmaxFrom (i + 1) i v vs else argmaxFrom (i + 1) bi bv vs

/-- The predicted class of a logits vector (`_, predicted = outputs.max(1)`,
main.py lines 93-94). -/
def predictedClass : List ℚ → ℕ
  | [] => 0
  | v :: vs => argmaxFrom 1 0 v vs

/-- The mutable state of the `test` loop: the evaluated model's parameters
(never assigned by the loop body) and the three running counters of
main.py lines 84-86. -/
structure EvalState where
  params : List ℚ
  natural_correct : ℕ
  adv_correct : ℕ
  total : ℕ
  deriving DecidableEq

/-- One batch of `test` (main.py lines 89-98): `net` maps the parameters and
a sample to clean logits, `atk` to the attack's adversarial logits
(`adv_outputs, pert_inputs = attack_model(inputs, targets)`); the counters
grow by the per-batch correct counts and the batch size; nothing else in the
state is assigned. -/
def testBatchStep (net atk : List ℚ → Tensor → Tensor) (st : EvalState)
    (batch : List (Tensor × ℕ)) : EvalState :=
  { st with
    natural_correct := st.natural_correct
      + batch.countP (fun s => predictedClass (net st.params s.1) == s.2),
    adv_correct := st.adv_correct
      + batch.countP (fun s => predictedClass (atk st.params s.1) == s.2),
    total := st.total + batch.length }

/-- Embeds `test` (main.py lines 80-103): counters start at zero, every
batch of the loader is tallied, and the pair
`(natural_acc, robust_acc) = (100 * natural_correct / total, 100 * adv_correct / total)`
is returned together with the final loop state. -/
def test (net atk : List ℚ → Tensor → Tensor) (testloader : List (List (Tensor × ℕ)))
    (params : List ℚ) : (ℚ × ℚ) × EvalState :=
  let fin := testloader.foldl (testBatchStep net atk) ⟨params, 0, 0, 0⟩
  ((100 * (fin.natural_correct : ℚ) / (fin.total : ℚ),
    100 * (fin.adv_correct : ℚ) / (fin.total : ℚ)), fin)

/-- The fold of batch steps accumulates the counters over the flattened
loader and leaves the parameters alone. -/
lemma test_fold_spec (net atk : List ℚ → Tensor → Tensor)
    (loader : List (List (Tensor × ℕ))) (st : EvalState) :
    (loader.foldl (testBatchStep net atk) st).params = st.params ∧
      (loader.foldl (testBatchStep net atk) st).natural_correct
        = st.natural_correct
          + loader.flatten.countP (fun s => predictedClass (net st.params s.1) == s.2) ∧
      (loader.foldl (testBatchStep net atk) st).adv_correct
        = st.adv_correct
          + loader.flatten.countP (fun s => predictedClass (atk st.params s.1) == s.2) ∧
      (loader.foldl (testBatchStep net atk) st).total = st.total + loader.flatten.length := by
  induction loader generalizing st with
  | nil => simp
  | cons b bs ih =>
    obtain ⟨h1, h2, h3, h4⟩ := ih (testBatchStep net atk st b)
    have hp : (testBatchStep net atk st b).params = st.params := rfl
    rw [hp] at h2 h3
    refine ⟨?_, ?_, ?_, ?_⟩
    · rw [List.foldl_cons, h1, hp]
    · rw [List.foldl_cons, h2, List.flatten_cons, List.countP_append]
      simp only [testBatchStep]
      omega
    · rw [List.foldl_cons, h3, List.flatten_cons, List.countP_append]
      simp only [testBatchStep]
      omega
    · rw [List.foldl_cons, h4, List.flatten_cons, List.length_append]
      simp only [testBatchStep]
      omega

/-- C10: over a held-out set with `T` samples in total, `test` returns the
pair `(natural accuracy, robust accuracy)` equal to
`100 * (correct clean predictions) / T` and
`100 * (correct adversarial predictions) / T`, the counts accumulated over
all batches, and the evaluated parameters leave the loop unchanged. -/
theorem test_accuracies (net atk : List ℚ → Tensor → Tensor)
    (loader : List (List (Tensor × ℕ))) (params : List ℚ) (T : ℕ)
    (hT : loader.flatten.length = T) (hpos : 0 < T) :
    (test net atk loader params).1
        = (100 * (loader.flatten.countP
              (fun s => predictedClass (net params s.1) == s.2) : ℚ) / T,
           100 * (loader.flatten.countP
              (fun s => predictedClass (atk params s.1) == s.2) : ℚ) / T) ∧
      (test net atk loader params).2.params = params := by
  obtain ⟨h1, h2, h3, h4⟩ := test_fold_spec net atk loader ⟨params, 0, 0, 0⟩
  refine ⟨?_, ?_⟩
  · simp only [test, h1, h2, h3, h4, Nat.zero_add, hT]
  · simp only [test, h1]

/-- Witness for `test_accuracies` on a two-batch loader with three samples:
a perfect clean classifier and an always-wrong adversarial column. -/
theorem test_accuracies_witness :
    (([[([0], 0), ([1], 0)], [([2], 1)]] : List (List (Tensor × ℕ))).flatten.length = 3) ∧
      0 < 3 ∧
      ((test (fun _ s => if s.headD 0 ≤ 1 then [5, 1] else [1, 5])
            (fun _ _ => [5, 1])
            [[([0], 0), ([1], 0)], [([2], 1)]] [9]).1
          = (100 * ((([[([0], 0), ([1], 0)], [([2], 1)]] : List (List (Tensor × ℕ))).flatten.countP
                (fun s => predictedClass
                  ((fun _ s => if s.headD 0 ≤ 1 then [5, 1] else [1, 5]) [9] s.1) == s.2) : ℚ)) / 3,
             100 * ((([[([0], 0), ([1], 0)], [([2], 1)]] : List (List (Tensor × ℕ))).flatten.countP
                (fun s => predictedClass
                  ((fun _ _ => ([5, 1] : Tensor)) [9] s.1) == s.2) : ℚ)) / 3) ∧
        (test (fun _ s => if s.headD 0 ≤ 1 then [5, 1] else [1, 5])
            (fun _ _ => [5, 1])
            [[([0], 0), ([1], 0)], [([2], 1)]] [9]).2.params = [9]) :=
  ⟨rfl, by decide,
    test_accuracies (fun _ s => if s.headD 0 ≤ 1 then [5, 1] else [1, 5])
      (fun _ _ => [5, 1]) [[([0], 0), ([1], 0)], [([2], 1)]] [9] 3 rfl (by decide)⟩

end ARD
